import Mathlib

/-!
Verification of the Recipe Finder application core (`src/App.js`).

The JavaScript source is shallowly embedded: strings are Lean `String`
(a wrapper around `List Char`), JS `String.prototype.trim` and the
single-character `String.prototype.split` are modelled over the char
list, nullable values are `Option`, thrown JS errors are `Except`, and
the React `useState` cells are gathered into an explicit `AppState`
record that the event handlers transform.
-/

/-- Model of JS `String.prototype.trim` on the underlying char list:
drop leading whitespace, then drop trailing whitespace. -/
def trimCharList (l : List Char) : List Char :=
  ((l.dropWhile Char.isWhitespace).reverse.dropWhile Char.isWhitespace).reverse

/-- Model of JS `s.trim()`. -/
def jsTrim (s : String) : String :=
  ⟨trimCharList s.data⟩

/-- Model of JS `s.split(sep)` for a single-character separator, on the
underlying char list.  `"".split(c) = [""]`, separators at the ends
produce empty pieces, exactly as in JS. -/
def splitCharList (sep : Char) : List Char → List (List Char)
  | [] => [[]]
  | c :: rest =>
    let r := splitCharList sep rest
    if c = sep then [] :: r
    else
      match r with
      | [] => [[c]]
      | g :: gs => (c :: g) :: gs

/-- Model of JS `s.split(sep)` for a single-character separator. -/
def jsSplit (sep : Char) (s : String) : List String :=
  (splitCharList sep s.data).map String.mk

/-- A recipe summary as returned by the lookup-by-ingredient endpoint
(`filter.php`): the fields the application reads. -/
structure Meal where
  idMeal : String
  strMeal : String
  strMealThumb : String
deriving DecidableEq, Repr

/-- One normalized (ingredient, measure) pair produced by
`extractIngredients`. -/
structure IngredientLine where
  ingredient : String
  measure : String
deriving DecidableEq, Repr

/-- A full recipe record as returned by the lookup-by-identifier
endpoint (`lookup.php`).  The twenty `strIngredientN` / `strMeasureN`
fields are modelled as two lists: index `i` of the list holds field
number `i + 1`, `none` standing for an absent or `null` field. -/
structure MealDetail where
  idMeal : String
  strMeal : String
  strMealThumb : String
  strArea : Option String
  strCategory : Option String
  strInstructions : Option String
  strYoutube : Option String
  ingredientSlots : List (Option String)
  measureSlots : List (Option String)
deriving DecidableEq, Repr

/-- Embedding of `extractIngredients` (App.js lines 9-27): loop `i` from
1 to 20, read `strIngredient{i}` and `strMeasure{i}`, and push
`{ingredient: ingredient.trim(), measure: (measure || '').trim()}`
whenever `ingredient && ingredient.trim()` is truthy.  List index `i`
models field number `i + 1`; an index beyond the list is an absent
field (`undefined`), i.e. `none`. -/
def extractIngredients (recipeDetails : MealDetail) : List IngredientLine :=
  (List.range 20).filterMap (fun i =>
    match recipeDetails.ingredientSlots.getD i none with
    | none => none
    | some ingredient =>
      if ingredient != "" && jsTrim ingredient != "" then
        some { ingredient := jsTrim ingredient
               measure := jsTrim ((recipeDetails.measureSlots.getD i none).getD "") }
      else none)

/-- Embedding of `formatInstructions` (App.js lines 34-41):
`if (!instructions) return []`, then split on `'\n'`, keep the lines
whose trim is truthy, and trim each kept line. -/
def formatInstructions (instructions : Option String) : List String :=
  match instructions with
  | none => []
  | some s =>
    if s = "" then []
    else ((jsSplit '\n' s).filter (fun step => jsTrim step != "")).map jsTrim

example : jsTrim "  a b  " = "a b" := by decide
example : jsSplit ',' "a, b ,," = ["a", " b ", "", ""] := by decide
example : formatInstructions (some "Step one.\n\nStep two.\n  ") =
    ["Step one.", "Step two."] := by decide

/-- A thrown JS error, abstracted to the two `err.name` values the
handlers distinguish: `TypeError` (fetch transport failures and runtime
type errors) and plain `Error` (the explicitly `throw new Error(...)`
cases), each carrying its message. -/
inductive JSError where
  | typeError (msg : String)
  | jsError (msg : String)
deriving DecidableEq, Repr

/-- `err.name` of a modelled JS error. -/
def JSError.name : JSError → String
  | .typeError _ => "TypeError"
  | .jsError _ => "Error"

/-- Outcome of one `fetch` of the lookup-by-ingredient endpoint:
either the request never reached the service (the promise rejects with
a `TypeError`), or a response arrived with an HTTP status and a JSON
body whose `meals` field is `null` (`none`) or a list. -/
inductive FetchOutcome where
  | transportFailure
  | response (status : Nat) (meals : Option (List Meal))
deriving DecidableEq, Repr

/-- A fetch outcome together with the instant (abstract clock) at which
the underlying promise settles. -/
structure TimedResponse where
  time : Nat
  outcome : FetchOutcome
deriving DecidableEq, Repr

/-- `response.ok`: HTTP status in the 200-299 range. -/
def responseOk (status : Nat) : Bool :=
  200 ≤ status && status ≤ 299

/-- Result of a settled JS promise. -/
inductive PromiseResult (α : Type) where
  | fulfilled (v : α)
  | rejected (e : JSError)
deriving DecidableEq, Repr

/-- A settled JS promise: the instant it settles and its result. -/
structure Settled (α : Type) where
  time : Nat
  result : PromiseResult α
deriving DecidableEq, Repr

/-- The per-term promise built at App.js lines 105-111:
`fetch(...).then(res => { if (!res.ok) throw new Error(...); return res.json(); })`,
read down to its `meals` field.  A transport failure rejects with a
`TypeError`; a non-ok status rejects with
`Error("HTTP error! status: " + status)`; otherwise the promise
fulfills with the response's `meals` field. -/
def termPromise (tr : TimedResponse) : Settled (Option (List Meal)) :=
  { time := tr.time
    result :=
      match tr.outcome with
      | .transportFailure => .rejected (.typeError "Failed to fetch")
      | .response status meals =>
        if responseOk status then .fulfilled meals
        else .rejected (.jsError ("HTTP error! status: " ++ toString status)) }

/-- The earliest rejection among a list of settled promises: its settle
time and reason.  Ties are broken towards the earlier position in the
list.  `none` when every promise fulfills. -/
def earliestRejection {α : Type} : List (Settled α) → Option (Nat × JSError)
  | [] => none
  | p :: ps =>
    match p.result with
    | .fulfilled _ => earliestRejection ps
    | .rejected e =>
      match earliestRejection ps with
      | none => some (p.time, e)
      | some (t, e2) => if t < p.time then some (t, e2) else some (p.time, e)

/-- The instant by which every promise in the list has settled. -/
def maxSettleTime {α : Type} (ps : List (Settled α)) : Nat :=
  ps.foldl (fun acc p => max acc p.time) 0

/-- The fulfilled values of a list of settled promises, in order. -/
def fulfilledValues {α : Type} (ps : List (Settled α)) : List α :=
  ps.filterMap (fun p =>
    match p.result with
    | .fulfilled v => some v
    | .rejected _ => none)

/-- Semantics of `Promise.all` over settled promises: if any promise
rejects, the aggregate rejects with the reason of the first rejection,
at that rejection's instant — without waiting for the remaining
promises; if all fulfill, it fulfills with the list of values once the
last promise has settled. -/
def promiseAll {α : Type} (ps : List (Settled α)) : Settled (List α) :=
  match earliestRejection ps with
  | some (t, e) => { time := t, result := .rejected e }
  | none => { time := maxSettleTime ps, result := .fulfilled (fulfilledValues ps) }

/-- `mealMap.has(id)` for `mealMap = new Map(firstList.map(m => [m.idMeal, m]))`. -/
def mealMapHas (firstList : List Meal) (id : String) : Bool :=
  firstList.any (fun m => m.idMeal == id)

/-- `mealMap.get(id)`: since later `Map` entries overwrite earlier ones
with the same key, this is the last element of `firstList` carrying the
identifier. -/
def mealMapGet (firstList : List Meal) (id : String) : Option Meal :=
  (firstList.filter (fun m => m.idMeal == id)).getLast?

/-- The fallback scan at App.js lines 132-135: walk the result lists in
request order and return the first meal found with the identifier. -/
def findMealIn (lists : List (List Meal)) (id : String) : Option Meal :=
  lists.findSome? (fun l => l.find? (fun m => m.idMeal == id))

/-- One step of the `commonIds.map(...)` callback at App.js lines
129-137: prefer the first list's map entry, otherwise fall back to
scanning all result lists; `null` (`none`) if neither finds the id. -/
def buildMeal (firstList : List Meal) (lists : List (List Meal)) (id : String) :
    Option Meal :=
  if mealMapHas firstList id then mealMapGet firstList id
  else findMealIn lists id

/-- `idSets.every(s => s.has(id))`: the identifier occurs in every
result list. -/
def allListsHaveId (lists : List (List Meal)) (id : String) : Bool :=
  lists.all (fun l => (l.map Meal.idMeal).contains id)

/-- `commonIds` (App.js lines 123-125): the first list's identifiers,
in order, filtered to those present in every term's identifier set. -/
def commonIds (firstList : List Meal) (lists : List (List Meal)) : List String :=
  (firstList.map Meal.idMeal).filter (allListsHaveId lists)

/-- `intersected` (App.js lines 129-137): build a meal per common
identifier and drop the `null`s with `.filter(Boolean)`. -/
def intersectMeals (firstList : List Meal) (lists : List (List Meal)) : List Meal :=
  ((commonIds firstList lists).map (buildMeal firstList lists)).filterMap (fun x => x)

/-- The `useState` cells of the `App` component, as one record. -/
structure AppState where
  searchQuery : String
  recipes : List Meal
  loading : Bool
  error : String
  hasSearched : Bool
  selectedRecipe : Option Meal
  recipeDetails : Option MealDetail
  detailsLoading : Bool
  detailsError : String
deriving DecidableEq, Repr

/-- The component's initial state: every string cell empty, no recipes,
no selection, nothing loading. -/
def initState : AppState :=
  { searchQuery := ""
    recipes := []
    loading := false
    error := ""
    hasSearched := false
    selectedRecipe := none
    recipeDetails := none
    detailsLoading := false
    detailsError := "" }

/-- Single-term no-results message (App.js line 101). -/
def noResultsSingleMsg (query : String) : String :=
  "No recipes found with \"" ++ query ++
    "\". Try another ingredient like chicken, tomato, or pasta!"

/-- Multi-term no-results message (App.js lines 118 and 143). -/
def noResultsMultiMsg (ingredients : List String) : String :=
  "No recipes found that match all ingredients: \"" ++
    String.intercalate ", " ingredients ++ "\"."

/-- Connectivity message of the search catch block (App.js line 151). -/
def netErrorMsg : String :=
  "Network error: Please check your internet connection and try again."

/-- Generic message of the search catch block (App.js line 152). -/
def unexpectedSearchMsg : String :=
  "Sorry, we encountered an error while searching. Please try again in a moment."

/-- The search catch block's message selection (App.js lines 149-153):
`err.name === 'TypeError'` picks the connectivity message, anything
else the generic one. -/
def searchCatchMsg (e : JSError) : String :=
  if JSError.name e = "TypeError" then netErrorMsg else unexpectedSearchMsg

/-- `query.split(',').map(s => s.trim()).filter(Boolean)` (App.js lines
79-82). -/
def parseIngredients (query : String) : List String :=
  ((jsSplit ',' query).map jsTrim).filter (fun s => s != "")

/-- The state resets performed at App.js lines 70-76 before any request
is issued: loading on, both error banners cleared, search marked as
attempted, selection and fetched details dropped. -/
def resetForSearch (st : AppState) : AppState :=
  { st with
    loading := true
    error := ""
    detailsError := ""
    hasSearched := true
    selectedRecipe := none
    recipeDetails := none }

/-- The single-ingredient branch of the `try` block (App.js lines
85-102). -/
def singleSearch (t : String) (query : String) (upstream : String → TimedResponse)
    (st : AppState) : Except JSError AppState :=
  match (upstream t).outcome with
  | .transportFailure => .error (.typeError "Failed to fetch")
  | .response status meals =>
    if responseOk status then
      match meals with
      | some ms => .ok { st with recipes := ms }
      | none => .ok { st with recipes := [], error := noResultsSingleMsg query }
    else .error (.jsError ("HTTP error! status: " ++ toString status))

/-- The reduction applied to the settled `Promise.all` values (App.js
lines 116-145).  With zero ingredients `results` is empty and
`results[0].meals` at line 122 throws a `TypeError` on reading a
property of `undefined`. -/
def reduceResults (ingredients : List String) (results : List (Option (List Meal)))
    (st : AppState) : Except JSError AppState :=
  if results.any (fun r => r.isNone) then
    .ok { st with recipes := [], error := noResultsMultiMsg ingredients }
  else
    match results.map (fun r => r.getD []) with
    | [] => .error (.typeError "Cannot read properties of undefined (reading \x27meals\x27)")
    | firstList :: restLists =>
      if 0 < (intersectMeals firstList (firstList :: restLists)).length then
        .ok { st with recipes := intersectMeals firstList (firstList :: restLists) }
      else
        .ok { st with recipes := [], error := noResultsMultiMsg ingredients }

/-- The multi-ingredient branch of the `try` block (App.js lines
104-145): fan out one request per ingredient, `await Promise.all`, then
reduce.  Also reached with zero ingredients, since the code only
special-cases `ingredients.length === 1`. -/
def multiSearch (ingredients : List String) (upstream : String → TimedResponse)
    (st : AppState) : Except JSError AppState :=
  match (promiseAll (ingredients.map (fun ing => termPromise (upstream ing)))).result with
  | .rejected e => .error e
  | .fulfilled results => reduceResults ingredients results st

/-- The whole `try` block of `searchRecipes`: dispatch on
`ingredients.length === 1`. -/
def trySearch (ingredients : List String) (query : String)
    (upstream : String → TimedResponse) (st : AppState) : Except JSError AppState :=
  match ingredients with
  | [t] => singleSearch t query upstream st
  | _ => multiSearch ingredients upstream st

/-- Embedding of `searchRecipes` (App.js lines 67-158): no-op on blank
queries; otherwise reset state, parse the comma-separated terms, run
the `try` block, convert a thrown error into the banner message plus an
empty list, and finally clear `loading`. -/
def searchRecipes (st : AppState) (query : String)
    (upstream : String → TimedResponse) : AppState :=
  if jsTrim query = "" then st
  else
    let st1 := resetForSearch st
    let st2 :=
      match trySearch (parseIngredients query) query upstream st1 with
      | .ok s => s
      | .error e => { st1 with error := searchCatchMsg e, recipes := [] }
    { st2 with loading := false }

/-- Outcome of one `fetch` of the lookup-by-identifier endpoint. -/
inductive DetailFetchOutcome where
  | transportFailure
  | response (status : Nat) (meals : Option (List MealDetail))
deriving DecidableEq, Repr

/-- Connectivity message of the details catch block (App.js line 190). -/
def detailsNetMsg : String :=
  "Unable to load recipe details. Please check your connection."

/-- Generic message of the details catch block (App.js line 191). -/
def detailsGenericMsg : String :=
  "Sorry, we couldn\x27t load the recipe details. Please try again."

/-- The details catch block's message selection (App.js lines 188-192). -/
def detailsCatchMsg (e : JSError) : String :=
  if JSError.name e = "TypeError" then detailsNetMsg else detailsGenericMsg

/-- The `try` block of `fetchRecipeDetails` (App.js lines 170-185):
transport failure rejects with a `TypeError`; a non-ok status throws
`Error("HTTP error! status: " + status)`; `data.meals?.[0]` present
stores the record; otherwise `Error('Recipe details not found')` is
thrown. -/
def tryFetchDetails (recipeId : String) (upstream : String → DetailFetchOutcome)
    (st : AppState) : Except JSError AppState :=
  match upstream recipeId with
  | .transportFailure => .error (.typeError "Failed to fetch")
  | .response status meals =>
    if responseOk status then
      match meals with
      | some (d :: _) => .ok { st with recipeDetails := some d }
      | _ => .error (.jsError "Recipe details not found")
    else .error (.jsError ("HTTP error! status: " ++ toString status))

/-- Embedding of `fetchRecipeDetails` (App.js lines 164-197): no-op on
an empty identifier; otherwise set the loading flag, clear the details
error, run the `try` block, and on a thrown error set the details
banner and `setRecipeDetails(null)`; finally clear the loading flag. -/
def fetchRecipeDetails (st : AppState) (recipeId : String)
    (upstream : String → DetailFetchOutcome) : AppState :=
  if recipeId = "" then st
  else
    let st1 := { st with detailsLoading := true, detailsError := "" }
    let st2 :=
      match tryFetchDetails recipeId upstream st1 with
      | .ok s => s
      | .error e => { st1 with detailsError := detailsCatchMsg e, recipeDetails := none }
    { st2 with detailsLoading := false }

/-! ### Helper lemmas -/

/-- `jsTrim ""` is the empty string. -/
theorem jsTrim_empty : jsTrim "" = "" := by decide

/-- `trimCharList` written via `List.rdropWhile`. -/
theorem trimCharList_eq (l : List Char) :
    trimCharList l = List.rdropWhile Char.isWhitespace (l.dropWhile Char.isWhitespace) :=
  rfl

/-- Dropping leading whitespace is the identity on a trimmed char list. -/
theorem dropWhile_trimCharList (l : List Char) :
    (trimCharList l).dropWhile Char.isWhitespace = trimCharList l := by
  rw [trimCharList_eq]
  set d := l.dropWhile Char.isWhitespace with hd
  obtain ⟨t, ht⟩ := List.rdropWhile_prefix (p := Char.isWhitespace) (l := d)
  cases hr : List.rdropWhile Char.isWhitespace d with
  | nil => rfl
  | cons c r =>
    have hdc : d = c :: (r ++ t) := by rw [← ht, hr]; simp
    have hself : d.dropWhile Char.isWhitespace = d := by
      rw [hd]; exact List.dropWhile_idempotent _ _
    have hws : ¬ Char.isWhitespace c = true := by
      intro hc
      rw [hdc, List.dropWhile_cons_of_pos hc] at hself
      have hlen := congrArg List.length hself
      have hle := (List.dropWhile_sublist (l := r ++ t) Char.isWhitespace).length_le
      rw [List.length_cons] at hlen
      omega
    exact List.dropWhile_cons_of_neg hws

/-- The char-list trim is idempotent. -/
theorem trimCharList_idem (l : List Char) :
    trimCharList (trimCharList l) = trimCharList l := by
  rw [trimCharList_eq (trimCharList l), dropWhile_trimCharList, trimCharList_eq l,
    List.rdropWhile_idempotent]

/-- The JS string trim is idempotent. -/
theorem jsTrim_idem (s : String) : jsTrim (jsTrim s) = jsTrim s := by
  show String.mk (trimCharList (trimCharList s.data)) = String.mk (trimCharList s.data)
  rw [trimCharList_idem]

/-- A `filterMap` whose step is `if p x then some (g x) else none` is the
filter by `p` followed by the map by `g`. -/
theorem filterMap_eq_filter_then_map {α β : Type} (f : α → Option β) (p : α → Bool)
    (g : α → β) (l : List α)
    (h : ∀ x ∈ l, f x = if p x then some (g x) else none) :
    l.filterMap f = (l.filter p).map g := by
  induction l with
  | nil => rfl
  | cons a t ih =>
    have ha := h a (List.mem_cons_self a t)
    have ht : ∀ x ∈ t, f x = if p x then some (g x) else none :=
      fun x hx => h x (List.mem_cons_of_mem a hx)
    cases hpa : p a with
    | true =>
      rw [hpa, if_pos rfl] at ha
      simp [List.filterMap_cons, List.filter_cons, ha, hpa, ih ht]
    | false =>
      rw [hpa, if_neg (by simp)] at ha
      simp [List.filterMap_cons, List.filter_cons, ha, hpa, ih ht]

/-- A list of `some`s loses nothing to `filterMap`. -/
theorem length_filterMap_of_isSome {α : Type} (l : List (Option α))
    (h : ∀ x ∈ l, x.isSome = true) :
    (l.filterMap (fun x => x)).length = l.length := by
  induction l with
  | nil => rfl
  | cons a t ih =>
    obtain ⟨v, rfl⟩ := Option.isSome_iff_exists.1 (h a (List.mem_cons_self a t))
    simp [List.filterMap_cons, ih fun x hx => h x (List.mem_cons_of_mem _ hx)]

/-- With pairwise-distinct identifiers, filtering the first list by the
identifier of one of its members keeps exactly that member. -/
theorem filter_idMeal_eq_single {l : List Meal} {m : Meal}
    (hnd : (l.map Meal.idMeal).Nodup) (hm : m ∈ l) :
    l.filter (fun x => x.idMeal == m.idMeal) = [m] := by
  induction l with
  | nil => cases hm
  | cons a t ih =>
    rw [List.map_cons, List.nodup_cons] at hnd
    obtain ⟨hna, hnt⟩ := hnd
    rcases List.mem_cons.1 hm with rfl | hmt
    · have ht : t.filter (fun x => x.idMeal == m.idMeal) = [] := by
        rw [List.filter_eq_nil_iff]
        intro x hx hxe
        exact hna ((beq_iff_eq.1 hxe) ▸ List.mem_map_of_mem Meal.idMeal hx)
      simp [List.filter_cons, ht]
    · have hne : (a.idMeal == m.idMeal) = false := by
        rw [beq_eq_false_iff_ne]
        intro he
        exact hna (he ▸ List.mem_map_of_mem Meal.idMeal hmt)
      simp [List.filter_cons, hne, ih hnt hmt]

/-- With pairwise-distinct identifiers, the first list's `Map` returns
each member at its own identifier. -/
theorem mealMapGet_of_mem {l : List Meal} {m : Meal}
    (hnd : (l.map Meal.idMeal).Nodup) (hm : m ∈ l) :
    mealMapGet l m.idMeal = some m := by
  unfold mealMapGet
  rw [filter_idMeal_eq_single hnd hm]
  rfl

/-- The first list's `Map` holds every member's identifier. -/
theorem mealMapHas_of_mem {l : List Meal} {m : Meal} (hm : m ∈ l) :
    mealMapHas l m.idMeal = true :=
  List.any_eq_true.2 ⟨m, hm, by simp⟩

/-- On a member's identifier, `buildMeal` takes the map branch and,
with pairwise-distinct identifiers, returns that member. -/
theorem buildMeal_of_mem {l : List Meal} (lists : List (List Meal)) {m : Meal}
    (hnd : (l.map Meal.idMeal).Nodup) (hm : m ∈ l) :
    buildMeal l lists m.idMeal = some m := by
  unfold buildMeal
  rw [if_pos (mealMapHas_of_mem hm), mealMapGet_of_mem hnd hm]

/-- With pairwise-distinct identifiers in the first list, the
intersection step returns exactly the first list filtered to the
identifiers present in every list, in the first list's order. -/
theorem intersectMeals_eq_filter {firstList : List Meal} (lists : List (List Meal))
    (hnd : (firstList.map Meal.idMeal).Nodup) :
    intersectMeals firstList lists
      = firstList.filter (fun m => allListsHaveId lists m.idMeal) := by
  unfold intersectMeals commonIds
  rw [List.filter_map, List.map_map]
  have hcong : ∀ m ∈ firstList.filter (allListsHaveId lists ∘ Meal.idMeal),
      (buildMeal firstList lists ∘ Meal.idMeal) m = (fun x => some x) m := by
    intro m hm
    exact buildMeal_of_mem lists hnd (List.mem_of_mem_filter hm)
  rw [List.map_congr_left hcong, List.filterMap_map]
  simp [Function.comp_def]

/-- A list of fulfilled promises contains no rejection. -/
theorem earliestRejection_map_fulfilled {α β : Type} (l : List α) (tm : α → Nat)
    (v : α → β) :
    earliestRejection (l.map (fun x => Settled.mk (tm x) (.fulfilled (v x)))) = none := by
  induction l with
  | nil => rfl
  | cons a t ih => simpa [earliestRejection] using ih

/-- The fulfilled values of a list of fulfilled promises, in order. -/
theorem fulfilledValues_map_fulfilled {α β : Type} (l : List α) (tm : α → Nat)
    (v : α → β) :
    fulfilledValues (l.map (fun x => Settled.mk (tm x) (.fulfilled (v x)))) = l.map v := by
  induction l with
  | nil => rfl
  | cons a t ih => simpa [fulfilledValues, List.filterMap_cons] using ih

/-- `Promise.all` over fulfilled promises waits for all of them and
yields their values in order. -/
theorem promiseAll_map_fulfilled {α β : Type} (l : List α) (tm : α → Nat) (v : α → β) :
    promiseAll (l.map (fun x => Settled.mk (tm x) (.fulfilled (v x))))
      = { time := maxSettleTime (l.map (fun x => Settled.mk (tm x) (.fulfilled (v x))))
          result := .fulfilled (l.map v) } := by
  unfold promiseAll
  rw [earliestRejection_map_fulfilled, fulfilledValues_map_fulfilled]

/-- Every `.ok` outcome of the `try` block only touches the `recipes`
and `error` cells, and whenever it writes `error` it writes `recipes`
to the empty list. -/
theorem trySearch_ok_frame {ing : List String} {q : String}
    {u : String → TimedResponse} {st s : AppState}
    (h : trySearch ing q u st = .ok s) :
    s.searchQuery = st.searchQuery ∧ s.loading = st.loading ∧
    s.hasSearched = st.hasSearched ∧ s.selectedRecipe = st.selectedRecipe ∧
    s.recipeDetails = st.recipeDetails ∧ s.detailsLoading = st.detailsLoading ∧
    s.detailsError = st.detailsError ∧ (s.error = st.error ∨ s.recipes = []) := by
  match ing with
  | [] =>
    rw [show trySearch [] q u st
        = .error (.typeError "Cannot read properties of undefined (reading \x27meals\x27)")
      from rfl] at h
    exact Except.noConfusion h
  | [t] =>
    rw [show trySearch [t] q u st = singleSearch t q u st from rfl] at h
    unfold singleSearch at h
    split at h
    · exact Except.noConfusion h
    · split at h
      · split at h
        · rw [Except.ok.injEq] at h
          subst h
          exact ⟨rfl, rfl, rfl, rfl, rfl, rfl, rfl, Or.inl rfl⟩
        · rw [Except.ok.injEq] at h
          subst h
          exact ⟨rfl, rfl, rfl, rfl, rfl, rfl, rfl, Or.inr rfl⟩
      · exact Except.noConfusion h
  | t1 :: t2 :: ts =>
    rw [show trySearch (t1 :: t2 :: ts) q u st = multiSearch (t1 :: t2 :: ts) u st
      from rfl] at h
    unfold multiSearch at h
    split at h
    · exact Except.noConfusion h
    · unfold reduceResults at h
      split at h
      · rw [Except.ok.injEq] at h
        subst h
        exact ⟨rfl, rfl, rfl, rfl, rfl, rfl, rfl, Or.inr rfl⟩
      · split at h
        · exact Except.noConfusion h
        · split at h
          · rw [Except.ok.injEq] at h
            subst h
            exact ⟨rfl, rfl, rfl, rfl, rfl, rfl, rfl, Or.inl rfl⟩
          · rw [Except.ok.injEq] at h
            subst h
            exact ⟨rfl, rfl, rfl, rfl, rfl, rfl, rfl, Or.inr rfl⟩

/-- Reduction of a single-term search whose response is ok with a
non-null meals list. -/
theorem searchRecipes_single_ok {st : AppState} {query t : String}
    {u : String → TimedResponse} {status : Nat} {ms : List Meal}
    (hq : jsTrim query ≠ "") (hp : parseIngredients query = [t])
    (hu : (u t).outcome = .response status (some ms)) (hok : responseOk status = true) :
    searchRecipes st query u = { resetForSearch st with recipes := ms, loading := false } := by
  have h1 : trySearch [t] query u (resetForSearch st)
      = .ok { resetForSearch st with recipes := ms } := by
    show singleSearch t query u (resetForSearch st) = _
    unfold singleSearch
    rw [hu]
    simp [hok]
  simp only [searchRecipes, if_neg hq, hp, h1]

/-- The per-term promises of a multi-term search whose responses are
all ok. -/
theorem termPromises_all_ok (terms : List String) (u : String → TimedResponse)
    (mealsOf : String → Option (List Meal))
    (hu : ∀ t ∈ terms, (u t).outcome = .response 200 (mealsOf t)) :
    terms.map (fun ing => termPromise (u ing))
      = terms.map (fun ing => Settled.mk (u ing).time (.fulfilled (mealsOf ing))) := by
  apply List.map_congr_left
  intro x hx
  unfold termPromise
  rw [hu x hx]
  rfl

/-- Reduction of the results step when every term produced a meals
list. -/
theorem reduceResults_of_lists (ingredients : List String) (firstList : List Meal)
    (restLists : List (List Meal)) (st : AppState) :
    reduceResults ingredients ((firstList :: restLists).map some) st
      = if 0 < (intersectMeals firstList (firstList :: restLists)).length then
          .ok { st with recipes := intersectMeals firstList (firstList :: restLists) }
        else .ok { st with recipes := [], error := noResultsMultiMsg ingredients } := by
  unfold reduceResults
  rw [if_neg (by simp : ¬(((firstList :: restLists).map some).any fun r => r.isNone) = true)]
  rw [show ((firstList :: restLists).map some).map (fun r => r.getD [])
      = firstList :: restLists from by simp [Function.comp_def]]

/-- Reduction of a multi-term search in which every response is ok with
a non-null meals list. -/
theorem searchRecipes_multi_ok {st : AppState} {query t1 t2 : String} {ts : List String}
    {u : String → TimedResponse} {mealsOf : String → List Meal}
    (hq : jsTrim query ≠ "") (hp : parseIngredients query = t1 :: t2 :: ts)
    (hu : ∀ t ∈ t1 :: t2 :: ts, (u t).outcome = .response 200 (some (mealsOf t)))
    (hnd : ((mealsOf t1).map Meal.idMeal).Nodup)
    (hne : (mealsOf t1).filter
        (fun m => allListsHaveId ((t1 :: t2 :: ts).map mealsOf) m.idMeal) ≠ []) :
    searchRecipes st query u
      = { resetForSearch st with
          recipes := (mealsOf t1).filter
            (fun m => allListsHaveId ((t1 :: t2 :: ts).map mealsOf) m.idMeal)
          loading := false } := by
  rw [List.map_cons] at hne ⊢
  have hmap := termPromises_all_ok (t1 :: t2 :: ts) u (fun t => some (mealsOf t)) hu
  have hcast : (t1 :: t2 :: ts).map (fun ing => some (mealsOf ing))
      = (mealsOf t1 :: (t2 :: ts).map mealsOf).map some := by
    simp [List.map_map, Function.comp_def]
  have h1 : trySearch (t1 :: t2 :: ts) query u (resetForSearch st)
      = .ok { resetForSearch st with
              recipes := (mealsOf t1).filter
                (fun m => allListsHaveId (mealsOf t1 :: (t2 :: ts).map mealsOf) m.idMeal) } := by
    show multiSearch (t1 :: t2 :: ts) u (resetForSearch st) = _
    unfold multiSearch
    rw [hmap, promiseAll_map_fulfilled]
    show reduceResults (t1 :: t2 :: ts)
        ((t1 :: t2 :: ts).map (fun ing => some (mealsOf ing))) (resetForSearch st) = _
    rw [hcast, reduceResults_of_lists, intersectMeals_eq_filter _ hnd,
      if_pos (List.length_pos.2 hne)]
  simp only [searchRecipes, if_neg hq, hp, h1]

/-- Claim C1: a successful single-term search returns exactly the
upstream result list in upstream order; a successful multi-term search
returns exactly the first term's result list filtered to the recipe
identifiers present in every term's identifier set, preserving the
first list's relative order. -/
theorem search_returns_intersection :
    (∀ (st : AppState) (query t : String) (u : String → TimedResponse)
        (status : Nat) (ms : List Meal),
      jsTrim query ≠ "" →
      parseIngredients query = [t] →
      (u t).outcome = .response status (some ms) →
      responseOk status = true →
      ms ≠ [] →
      (searchRecipes st query u).recipes = ms ∧ (searchRecipes st query u).error = "")
    ∧ (∀ (st : AppState) (query t1 t2 : String) (ts : List String)
        (u : String → TimedResponse) (mealsOf : String → List Meal),
      jsTrim query ≠ "" →
      parseIngredients query = t1 :: t2 :: ts →
      (∀ t ∈ t1 :: t2 :: ts, (u t).outcome = .response 200 (some (mealsOf t))) →
      ((mealsOf t1).map Meal.idMeal).Nodup →
      (mealsOf t1).filter
          (fun m => allListsHaveId ((t1 :: t2 :: ts).map mealsOf) m.idMeal) ≠ [] →
      (searchRecipes st query u).recipes
          = (mealsOf t1).filter
              (fun m => allListsHaveId ((t1 :: t2 :: ts).map mealsOf) m.idMeal)
        ∧ (searchRecipes st query u).error = "") := by
  constructor
  · intro st query t u status ms hq hp hu hok _
    rw [searchRecipes_single_ok hq hp hu hok]
    exact ⟨rfl, rfl⟩
  · intro st query t1 t2 ts u mealsOf hq hp hu hnd hne
    rw [searchRecipes_multi_ok hq hp hu hnd hne]
    exact ⟨rfl, rfl⟩

def mX : Meal := { idMeal := "1", strMeal := "X", strMealThumb := "x.jpg" }

def mY : Meal := { idMeal := "2", strMeal := "Y", strMealThumb := "y.jpg" }

def mZ : Meal := { idMeal := "3", strMeal := "Z", strMealThumb := "z.jpg" }

def mW : Meal := { idMeal := "4", strMeal := "W", strMealThumb := "w.jpg" }

/-- Upstream fixture: term `a` yields `[X, Y, Z]`, any other term
yields `[Y, Z, W]`. -/
def uTwoLists : String → TimedResponse := fun t =>
  if t = "a" then { time := 1, outcome := .response 200 (some [mX, mY, mZ]) }
  else { time := 2, outcome := .response 200 (some [mY, mZ, mW]) }

/-- The per-term result lists of `uTwoLists`. -/
def mealsOfTwoLists : String → List Meal := fun t =>
  if t = "a" then [mX, mY, mZ] else [mY, mZ, mW]

theorem search_returns_intersection_witness :
    (searchRecipes initState "a" uTwoLists).recipes = [mX, mY, mZ]
    ∧ (searchRecipes initState "a,b" uTwoLists).recipes = [mY, mZ] := by
  constructor
  · exact (search_returns_intersection.1 initState "a" "a" uTwoLists 200 [mX, mY, mZ]
      (by decide) (by decide) (by decide) (by decide) (by decide)).1
  · have h := (search_returns_intersection.2 initState "a,b" "a" "b" [] uTwoLists
      mealsOfTwoLists (by decide) (by decide) (by decide) (by decide) (by decide)).1
    rw [h]
    decide

/-- Claim C3: after any search, a non-empty error banner implies an
empty recipe list (the invariant is preserved from any state already
satisfying it, so a partial list is never retained alongside an error),
and in the no-match cases the error is the no-results message carrying
the requested term(s). -/
theorem search_error_means_empty :
    (∀ (st : AppState) (query : String) (u : String → TimedResponse),
      (st.error ≠ "" → st.recipes = []) →
      ((searchRecipes st query u).error ≠ "" → (searchRecipes st query u).recipes = []))
    ∧ (∀ (st : AppState) (query t : String) (u : String → TimedResponse) (status : Nat),
      jsTrim query ≠ "" →
      parseIngredients query = [t] →
      (u t).outcome = .response status none →
      responseOk status = true →
      (searchRecipes st query u).error = noResultsSingleMsg query
      ∧ (searchRecipes st query u).recipes = [])
    ∧ (∀ (st : AppState) (query t1 t2 : String) (ts : List String)
        (u : String → TimedResponse) (mealsOf : String → Option (List Meal)),
      jsTrim query ≠ "" →
      parseIngredients query = t1 :: t2 :: ts →
      (∀ t ∈ t1 :: t2 :: ts, (u t).outcome = .response 200 (mealsOf t)) →
      (((t1 :: t2 :: ts).map mealsOf).any fun r => r.isNone) = true →
      (searchRecipes st query u).error = noResultsMultiMsg (t1 :: t2 :: ts)
      ∧ (searchRecipes st query u).recipes = []) := by
  refine ⟨?_, ?_, ?_⟩
  · intro st query u hinv
    by_cases hq : jsTrim query = ""
    · unfold searchRecipes
      rw [if_pos hq]
      exact hinv
    · cases htr : trySearch (parseIngredients query) query u (resetForSearch st) with
      | ok s =>
        have hred : searchRecipes st query u = { s with loading := false } := by
          simp only [searchRecipes, if_neg hq, htr]
        obtain ⟨-, -, -, -, -, -, -, herr⟩ := trySearch_ok_frame htr
        rw [hred]
        intro hne
        have hse : s.error ≠ "" := hne
        show s.recipes = []
        rcases herr with he | hr
        · exact absurd (he.trans rfl) hse
        · exact hr
      | error e =>
        have hred : searchRecipes st query u
            = { resetForSearch st with
                error := searchCatchMsg e, recipes := [], loading := false } := by
          simp only [searchRecipes, if_neg hq, htr]
        rw [hred]
        intro _
        rfl
  · intro st query t u status hq hp hu hok
    have h1 : trySearch [t] query u (resetForSearch st)
        = .ok { resetForSearch st with
                recipes := [], error := noResultsSingleMsg query } := by
      show singleSearch t query u (resetForSearch st) = _
      unfold singleSearch
      rw [hu]
      simp [hok]
    have hred : searchRecipes st query u
        = { resetForSearch st with
            recipes := [], error := noResultsSingleMsg query, loading := false } := by
      simp only [searchRecipes, if_neg hq, hp, h1]
    rw [hred]
    exact ⟨rfl, rfl⟩
  · intro st query t1 t2 ts u mealsOf hq hp hu hany
    have hmap := termPromises_all_ok (t1 :: t2 :: ts) u mealsOf hu
    have h1 : trySearch (t1 :: t2 :: ts) query u (resetForSearch st)
        = .ok { resetForSearch st with
                recipes := [], error := noResultsMultiMsg (t1 :: t2 :: ts) } := by
      show multiSearch (t1 :: t2 :: ts) u (resetForSearch st) = _
      unfold multiSearch
      rw [hmap, promiseAll_map_fulfilled]
      show reduceResults (t1 :: t2 :: ts)
          ((t1 :: t2 :: ts).map mealsOf) (resetForSearch st) = _
      unfold reduceResults
      rw [if_pos hany]
    have hred : searchRecipes st query u
        = { resetForSearch st with
            recipes := [], error := noResultsMultiMsg (t1 :: t2 :: ts), loading := false } := by
      simp only [searchRecipes, if_neg hq, hp, h1]
    rw [hred]
    exact ⟨rfl, rfl⟩

/-- Upstream fixture whose single response is ok with a `null` meals
field. -/
def uNullMeals : String → TimedResponse := fun _ =>
  { time := 0, outcome := .response 200 none }

/-- Upstream fixture: term `a` yields an ok empty list, any other term
an ok `null` meals field. -/
def uHalfNull : String → TimedResponse := fun t =>
  if t = "a" then { time := 0, outcome := .response 200 (some []) }
  else { time := 0, outcome := .response 200 none }

/-- The meals fields of `uHalfNull`. -/
def mealsOfHalfNull : String → Option (List Meal) := fun t =>
  if t = "a" then some [] else none

theorem search_error_means_empty_witness :
    ((searchRecipes initState "egg" uNullMeals).error ≠ ""
      → (searchRecipes initState "egg" uNullMeals).recipes = [])
    ∧ (searchRecipes initState "egg" uNullMeals).error = noResultsSingleMsg "egg"
    ∧ (searchRecipes initState "a,b" uHalfNull).error = noResultsMultiMsg ["a", "b"]
    ∧ (searchRecipes initState "a,b" uHalfNull).recipes = [] := by
  have h2 := search_error_means_empty.2.1 initState "egg" "egg" uNullMeals 200
    (by decide) (by decide) rfl (by decide)
  have h3 := search_error_means_empty.2.2 initState "a,b" "a" "b" [] uHalfNull
    mealsOfHalfNull (by decide) (by decide) (by decide) (by decide)
  exact ⟨search_error_means_empty.1 initState "egg" uNullMeals
    (fun h => absurd rfl h), h2.1, h3.1, h3.2⟩

/-- The catch block maps a `TypeError` to the connectivity message,
whatever its message text. -/
theorem searchCatchMsg_typeError (m : String) :
    searchCatchMsg (.typeError m) = netErrorMsg := by
  unfold searchCatchMsg
  rw [if_pos (show (JSError.typeError m).name = "TypeError" from rfl)]

/-- The catch block maps a plain `Error` to the generic message,
whatever its message text. -/
theorem searchCatchMsg_jsError (m : String) :
    searchCatchMsg (.jsError m) = unexpectedSearchMsg := by
  unfold searchCatchMsg
  rw [if_neg (by simp [JSError.name])]

/-- Claim C8: a transport-level failure produces the connectivity
error; a non-success HTTP status produces the distinct generic
(unexpected) error, the thrown error carrying the status code; the two
categories map to different messages and are never conflated. -/
theorem search_error_categories :
    (∀ (st : AppState) (query t : String) (u : String → TimedResponse),
      jsTrim query ≠ "" →
      parseIngredients query = [t] →
      (u t).outcome = .transportFailure →
      (searchRecipes st query u).error = netErrorMsg)
    ∧ (∀ (st stt : AppState) (query t : String) (u : String → TimedResponse)
        (status : Nat) (meals : Option (List Meal)),
      jsTrim query ≠ "" →
      parseIngredients query = [t] →
      (u t).outcome = .response status meals →
      responseOk status = false →
      (searchRecipes st query u).error = unexpectedSearchMsg
      ∧ singleSearch t query u stt
          = .error (.jsError ("HTTP error! status: " ++ toString status)))
    ∧ (∀ m : String,
      searchCatchMsg (.typeError m) = netErrorMsg
      ∧ searchCatchMsg (.jsError m) = unexpectedSearchMsg)
    ∧ netErrorMsg ≠ unexpectedSearchMsg := by
  refine ⟨?_, ?_, fun m => ⟨searchCatchMsg_typeError m, searchCatchMsg_jsError m⟩,
    by decide⟩
  · intro st query t u hq hp hu
    have h1 : trySearch [t] query u (resetForSearch st)
        = .error (.typeError "Failed to fetch") := by
      show singleSearch t query u (resetForSearch st) = _
      unfold singleSearch
      rw [hu]
    have hred : searchRecipes st query u
        = { resetForSearch st with
            error := searchCatchMsg (.typeError "Failed to fetch")
            recipes := [], loading := false } := by
      simp only [searchRecipes, if_neg hq, hp, h1]
    rw [hred]
    show searchCatchMsg (.typeError "Failed to fetch") = netErrorMsg
    exact searchCatchMsg_typeError _
  · intro st stt query t u status meals hq hp hu hok
    have h1 : ∀ s : AppState, singleSearch t query u s
        = .error (.jsError ("HTTP error! status: " ++ toString status)) := by
      intro s
      unfold singleSearch
      rw [hu]
      simp [hok]
    have hred : searchRecipes st query u
        = { resetForSearch st with
            error := searchCatchMsg (.jsError ("HTTP error! status: " ++ toString status))
            recipes := [], loading := false } := by
      simp only [searchRecipes, if_neg hq, hp]
      simp only [show trySearch [t] query u (resetForSearch st)
          = .error (.jsError ("HTTP error! status: " ++ toString status))
        from h1 (resetForSearch st)]
    refine ⟨?_, h1 stt⟩
    rw [hred]
    show searchCatchMsg (.jsError ("HTTP error! status: " ++ toString status))
        = unexpectedSearchMsg
    exact searchCatchMsg_jsError _

/-- Upstream fixture that never reaches the service. -/
def uDown : String → TimedResponse := fun _ =>
  { time := 0, outcome := .transportFailure }

/-- Upstream fixture answering HTTP 404 to every request. -/
def uNotFoundStatus : String → TimedResponse := fun _ =>
  { time := 0, outcome := .response 404 none }

theorem search_error_categories_witness :
    (searchRecipes initState "egg" uDown).error = netErrorMsg
    ∧ (searchRecipes initState "egg" uNotFoundStatus).error = unexpectedSearchMsg
    ∧ singleSearch "egg" "egg" uNotFoundStatus initState
        = .error (.jsError ("HTTP error! status: " ++ toString 404))
    ∧ searchCatchMsg (.typeError "Failed to fetch") = netErrorMsg
    ∧ netErrorMsg ≠ unexpectedSearchMsg := by
  obtain ⟨h1, h2, h3, h4⟩ := search_error_categories
  have hh := h2 initState initState "egg" "egg" uNotFoundStatus 404 none
    (by decide) (by decide) rfl (by decide)
  exact ⟨h1 initState "egg" "egg" uDown (by decide) (by decide) rfl,
    hh.1, hh.2, (h3 "Failed to fetch").1, h4⟩

/-- Claim C10: any search on a non-blank query clears the selected
recipe, the fetched detail record and the detail error before
processing responses — the final state has them cleared and the
search's outcome is independent of their previous values. -/
theorem search_resets_detail_state :
    ∀ (st : AppState) (query : String) (u : String → TimedResponse),
      jsTrim query ≠ "" →
      (searchRecipes st query u).selectedRecipe = none
      ∧ (searchRecipes st query u).recipeDetails = none
      ∧ (searchRecipes st query u).detailsError = ""
      ∧ searchRecipes st query u
          = searchRecipes
              { st with selectedRecipe := none, recipeDetails := none, detailsError := "" }
              query u := by
  intro st query u hq
  have hreset : resetForSearch
      { st with selectedRecipe := none, recipeDetails := none, detailsError := "" }
      = resetForSearch st := rfl
  have hcomp : (searchRecipes st query u).selectedRecipe = none
      ∧ (searchRecipes st query u).recipeDetails = none
      ∧ (searchRecipes st query u).detailsError = "" := by
    cases htr : trySearch (parseIngredients query) query u (resetForSearch st) with
    | ok s =>
      have hred : searchRecipes st query u = { s with loading := false } := by
        simp only [searchRecipes, if_neg hq, htr]
      obtain ⟨-, -, -, hsel, hdet, -, herr, -⟩ := trySearch_ok_frame htr
      rw [hred]
      exact ⟨hsel, hdet, herr⟩
    | error e =>
      have hred : searchRecipes st query u
          = { resetForSearch st with
              error := searchCatchMsg e, recipes := [], loading := false } := by
        simp only [searchRecipes, if_neg hq, htr]
      rw [hred]
      exact ⟨rfl, rfl, rfl⟩
  refine ⟨hcomp.1, hcomp.2.1, hcomp.2.2, ?_⟩
  unfold searchRecipes
  rw [if_neg hq, if_neg hq, hreset]

/-- A state in which a previous search's detail view is still open. -/
def stStaleDetail : AppState :=
  { initState with
    selectedRecipe := some mX
    recipeDetails := some
      { idMeal := "1", strMeal := "X", strMealThumb := "x.jpg", strArea := none,
        strCategory := none, strInstructions := none, strYoutube := none,
        ingredientSlots := [], measureSlots := [] }
    detailsError := "old detail error" }

theorem search_resets_detail_state_witness :
    (searchRecipes stStaleDetail "egg" uDown).selectedRecipe = none
    ∧ (searchRecipes stStaleDetail "egg" uDown).recipeDetails = none
    ∧ (searchRecipes stStaleDetail "egg" uDown).detailsError = ""
    ∧ searchRecipes stStaleDetail "egg" uDown
        = searchRecipes
            { stStaleDetail with
              selectedRecipe := none, recipeDetails := none, detailsError := "" }
            "egg" uDown :=
  search_resets_detail_state stStaleDetail "egg" uDown (by decide)

/-- The loop guard `ingredient && ingredient.trim()` is equivalent to
the trimmed slot value being non-empty. -/
theorem slotGuard_eq (ing : String) :
    (ing != "" && jsTrim ing != "") = (jsTrim ing != "") := by
  by_cases h : ing = ""
  · subst h
    decide
  · have hb : (ing != "") = true := bne_iff_ne.2 h
    rw [hb, Bool.true_and]

/-- Example detail record: ingredient slots 1, 3, 5 populated (slot 2
whitespace-only, slot 3 padded), every other slot empty; measures for
slots 1 and 3 only. -/
def slotExampleDetail : MealDetail :=
  { idMeal := "52772"
    strMeal := "Example"
    strMealThumb := "thumb.jpg"
    strArea := none
    strCategory := none
    strInstructions := none
    strYoutube := none
    ingredientSlots :=
      [some "Chicken", some "   ", some " Rice", none, some "Salt",
       none, none, none, none, none, none, none, none, none, none,
       none, none, none, none, none]
    measureSlots :=
      [some "1 lb", none, some "2 cups", none, none,
       none, none, none, none, none, none, none, none, none, none,
       none, none, none, none, none] }

/-- Claim C6: `extractIngredients` visits slots 1 through 20 in
ascending order and emits one entry per slot whose ingredient name is
present and non-blank after trimming (the measure defaulting to the
empty string when absent), never emits a blank name, and on a record
with slots 1, 3, 5 populated yields exactly three entries in slot
order. -/
theorem extractIngredients_slots :
    (∀ d : MealDetail,
      extractIngredients d
        = ((List.range 20).filter
              (fun i => jsTrim ((d.ingredientSlots.getD i none).getD "") != "")).map
            (fun i =>
              { ingredient := jsTrim ((d.ingredientSlots.getD i none).getD "")
                measure := jsTrim ((d.measureSlots.getD i none).getD "") })
      ∧ (∀ e ∈ extractIngredients d, jsTrim e.ingredient ≠ ""))
    ∧ extractIngredients slotExampleDetail
        = [{ ingredient := "Chicken", measure := "1 lb" },
           { ingredient := "Rice", measure := "2 cups" },
           { ingredient := "Salt", measure := "" }] := by
  have hmain : ∀ d : MealDetail,
      extractIngredients d
        = ((List.range 20).filter
              (fun i => jsTrim ((d.ingredientSlots.getD i none).getD "") != "")).map
            (fun i =>
              { ingredient := jsTrim ((d.ingredientSlots.getD i none).getD "")
                measure := jsTrim ((d.measureSlots.getD i none).getD "") }) := by
    intro d
    unfold extractIngredients
    apply filterMap_eq_filter_then_map
    intro i _
    cases hslot : d.ingredientSlots.getD i none with
    | none => simp [jsTrim_empty]
    | some ing => simp only [Option.getD_some, slotGuard_eq]
  refine ⟨fun d => ⟨hmain d, ?_⟩, by decide⟩
  intro e he
  rw [hmain d] at he
  obtain ⟨i, hi, rfl⟩ := List.mem_map.1 he
  have hp := (List.mem_filter.1 hi).2
  show jsTrim (jsTrim ((d.ingredientSlots.getD i none).getD "")) ≠ ""
  rw [jsTrim_idem]
  exact bne_iff_ne.1 hp

/-- Claim C7: `formatInstructions` yields the empty sequence on null or
empty input; otherwise it splits on line breaks, discards lines blank
after trimming, trims each retained line and preserves source order;
on the documented example it yields exactly the two steps. -/
theorem formatInstructions_steps :
    formatInstructions none = []
    ∧ formatInstructions (some "") = []
    ∧ (∀ s : String,
      formatInstructions (some s)
        = (jsSplit '\n' s).filterMap
            (fun line => if jsTrim line = "" then none else some (jsTrim line)))
    ∧ formatInstructions (some "Step one.\n\nStep two.\n  ")
        = ["Step one.", "Step two."] := by
  refine ⟨rfl, by decide, ?_, by decide⟩
  intro s
  by_cases hs : s = ""
  · subst hs
    decide
  · show (if s = "" then []
        else ((jsSplit '\n' s).filter (fun step => jsTrim step != "")).map jsTrim)
        = (jsSplit '\n' s).filterMap
            (fun line => if jsTrim line = "" then none else some (jsTrim line))
    rw [if_neg hs]
    refine (filterMap_eq_filter_then_map _ _ _ _ ?_).symm
    intro x _
    by_cases hx : jsTrim x = ""
    · simp [hx]
    · simp [hx]

/-- Claim C4 (code bug): the query `","` trims to a non-empty string
but parses to zero ingredient terms, so the guard does not return; the
code takes the multi-ingredient branch, `results[0].meals` throws a
`TypeError` on the empty results array, and the catch block reports the
connectivity message — the search is not a no-op and surfaces a
spurious error. -/
theorem comma_query_not_noop :
    parseIngredients "," = []
    ∧ searchRecipes initState "," uDown ≠ initState
    ∧ (searchRecipes initState "," uDown).error = netErrorMsg
    ∧ (searchRecipes initState "," uDown).hasSearched = true
    ∧ (searchRecipes initState "," uDown).recipes = [] := by decide

/-- A detail record as previously displayed in the modal. -/
def oldDetail : MealDetail :=
  { idMeal := "100", strMeal := "Old", strMealThumb := "old.jpg", strArea := none,
    strCategory := none, strInstructions := none, strYoutube := none,
    ingredientSlots := [], measureSlots := [] }

/-- A state whose modal is showing `oldDetail`. -/
def stShowingDetail : AppState :=
  { initState with selectedRecipe := some mX, recipeDetails := some oldDetail }

/-- Detail endpoint fixture with no record for any identifier. -/
def uNoRecord : String → DetailFetchOutcome := fun _ => .response 200 none

/-- Claim C5 counterexample: with a detail record on display, a detail
fetch for an identifier with no upstream match does mutate the
previously displayed detail state — the catch block resets it to
`null`. -/
theorem detail_fetch_clears_previous_cex :
    stShowingDetail.recipeDetails = some oldDetail
    ∧ (fetchRecipeDetails stShowingDetail "100" uNoRecord).recipeDetails = none
    ∧ (fetchRecipeDetails stShowingDetail "100" uNoRecord).recipeDetails
        ≠ stShowingDetail.recipeDetails := by decide

/-- Claim C5 (amended): a detail fetch for an identifier with no
matching upstream record throws the internal not-found error, surfaced
as the generic details message, and resets the stored detail record to
`null` — clearing, not preserving, any previously displayed detail. -/
theorem detail_not_found_resets :
    ∀ (st stt : AppState) (recipeId : String) (u : String → DetailFetchOutcome)
      (status : Nat) (meals : Option (List MealDetail)),
      recipeId ≠ "" →
      u recipeId = .response status meals →
      responseOk status = true →
      (meals = none ∨ meals = some []) →
      tryFetchDetails recipeId u stt = .error (.jsError "Recipe details not found")
      ∧ (fetchRecipeDetails st recipeId u).detailsError = detailsGenericMsg
      ∧ (fetchRecipeDetails st recipeId u).recipeDetails = none := by
  intro st stt recipeId u status meals hid hu hok hempty
  have htry : ∀ s : AppState,
      tryFetchDetails recipeId u s = .error (.jsError "Recipe details not found") := by
    intro s
    unfold tryFetchDetails
    rw [hu]
    rcases hempty with rfl | rfl
    · simp [hok]
    · simp [hok]
  have hred : fetchRecipeDetails st recipeId u
      = { st with
          detailsError := detailsCatchMsg (.jsError "Recipe details not found")
          recipeDetails := none, detailsLoading := false } := by
    simp only [fetchRecipeDetails, if_neg hid, htry]
  refine ⟨htry stt, ?_, ?_⟩
  · rw [hred]
    show detailsCatchMsg (.jsError "Recipe details not found") = detailsGenericMsg
    unfold detailsCatchMsg
    rw [if_neg (by simp [JSError.name])]
  · rw [hred]

theorem detail_not_found_resets_witness :
    tryFetchDetails "100" uNoRecord initState
        = .error (.jsError "Recipe details not found")
    ∧ (fetchRecipeDetails initState "100" uNoRecord).detailsError = detailsGenericMsg
    ∧ (fetchRecipeDetails initState "100" uNoRecord).recipeDetails = none :=
  detail_not_found_resets initState initState "100" uNoRecord 200 none
    (by decide) rfl (by decide) (Or.inl rfl)

/-- Claim C9: every identifier kept by the intersection filter is
present in the map built from the first term's list, the fallback scan
over the other lists is never consulted, and the final
`filter(Boolean)` removes nothing. -/
theorem intersect_fallback_dead :
    ∀ (firstList : List Meal) (lists : List (List Meal)),
      (∀ id ∈ commonIds firstList lists, mealMapHas firstList id = true)
      ∧ ((commonIds firstList lists).map (buildMeal firstList lists)
          = (commonIds firstList lists).map (mealMapGet firstList))
      ∧ (intersectMeals firstList lists).length
          = (commonIds firstList lists).length := by
  intro firstList lists
  have hmem : ∀ id ∈ commonIds firstList lists, mealMapHas firstList id = true := by
    intro id hid
    have hid2 : id ∈ firstList.map Meal.idMeal := List.mem_of_mem_filter hid
    obtain ⟨m, hm, rfl⟩ := List.mem_map.1 hid2
    exact mealMapHas_of_mem hm
  have hsome : ∀ x ∈ (commonIds firstList lists).map (buildMeal firstList lists),
      x.isSome = true := by
    intro x hx
    obtain ⟨id, hid, rfl⟩ := List.mem_map.1 hx
    have hhas := hmem id hid
    unfold buildMeal
    rw [if_pos hhas]
    obtain ⟨m, hm, hbeq⟩ := List.any_eq_true.1 hhas
    have hne : firstList.filter (fun x => x.idMeal == id) ≠ [] :=
      List.ne_nil_of_mem (List.mem_filter.2 ⟨hm, hbeq⟩)
    simpa [mealMapGet] using List.getLast?_isSome.2 hne
  refine ⟨hmem, ?_, ?_⟩
  · apply List.map_congr_left
    intro id hid
    unfold buildMeal
    rw [if_pos (hmem id hid)]
  · unfold intersectMeals
    rw [length_filterMap_of_isSome _ hsome, List.length_map]

/-- A one-element upstream list for the fallback-dead witness. -/
def wMeal : Meal := { idMeal := "7", strMeal := "Wit", strMealThumb := "w7.jpg" }

theorem intersect_fallback_dead_witness :
    mealMapHas [wMeal] "7" = true
    ∧ (intersectMeals [wMeal] [[wMeal]]).length = (commonIds [wMeal] [[wMeal]]).length := by
  refine ⟨(intersect_fallback_dead [wMeal] [[wMeal]]).1 "7" (by decide),
    (intersect_fallback_dead [wMeal] [[wMeal]]).2.2⟩

/-- Upstream fixture for the short-circuit counterexample: term `a`
comes back HTTP 500 at instant 5, term `b` comes back ok at instant
10. -/
def uRace : String → TimedResponse := fun t =>
  if t = "a" then { time := 5, outcome := .response 500 none }
  else { time := 10, outcome := .response 200 (some []) }

/-- Claim C2 counterexample: with the first term's request rejecting at
instant 5 and the second fulfilling at instant 10, `Promise.all`
settles at instant 5 — before the last per-term outcome exists — so the
multi-term aggregation does not collect all N outcomes before deciding
failure. -/
theorem promiseAll_short_circuits_cex :
    (promiseAll (["a", "b"].map (fun t => termPromise (uRace t)))).time = 5
    ∧ maxSettleTime (["a", "b"].map (fun t => termPromise (uRace t))) = 10
    ∧ (promiseAll (["a", "b"].map (fun t => termPromise (uRace t)))).time
        ≠ maxSettleTime (["a", "b"].map (fun t => termPromise (uRace t))) := by decide

/-- Claim C2 (amended): when no per-term request rejects, the
aggregation waits for all N outcomes and reduces them together; an ok
response with a `null` meals field is a fulfilled outcome, so an empty
response never short-circuits the wait; and the multi-term no-results
error produced by the reduction always lists every requested term.  A
rejected request, however, settles the aggregate at the first rejection
without waiting for later outcomes. -/
theorem promiseAll_waits_for_fulfilled :
    (∀ (α : Type) (ps : List (Settled α)),
      earliestRejection ps = none →
      promiseAll ps
        = { time := maxSettleTime ps, result := .fulfilled (fulfilledValues ps) })
    ∧ (∀ (tr : TimedResponse) (status : Nat) (meals : Option (List Meal)),
      tr.outcome = .response status meals →
      responseOk status = true →
      (termPromise tr).result = .fulfilled meals)
    ∧ (∀ (ingredients : List String) (results : List (Option (List Meal)))
        (st : AppState),
      (results.any fun r => r.isNone) = true →
      reduceResults ingredients results st
        = .ok { st with recipes := [], error := noResultsMultiMsg ingredients }) := by
  refine ⟨?_, ?_, ?_⟩
  · intro α ps h
    unfold promiseAll
    rw [h]
  · intro tr status meals h hok
    unfold termPromise
    rw [h]
    simp [hok]
  · intro ingredients results st h
    unfold reduceResults
    rw [if_pos h]

theorem promiseAll_waits_for_fulfilled_witness :
    promiseAll [Settled.mk 3 (.fulfilled (42 : Nat))]
        = { time := maxSettleTime [Settled.mk 3 (.fulfilled (42 : Nat))]
            result := .fulfilled (fulfilledValues [Settled.mk 3 (.fulfilled (42 : Nat))]) }
    ∧ (termPromise { time := 1, outcome := .response 200 none }).result = .fulfilled none
    ∧ reduceResults ["a", "b"] [none] initState
        = .ok { initState with recipes := [], error := noResultsMultiMsg ["a", "b"] } :=
  ⟨promiseAll_waits_for_fulfilled.1 Nat _ (by decide),
   promiseAll_waits_for_fulfilled.2.1 _ 200 none rfl (by decide),
   promiseAll_waits_for_fulfilled.2.2 ["a", "b"] [none] initState (by decide)⟩

theorem extractIngredients_slots_witness :
    jsTrim (IngredientLine.ingredient { ingredient := "Chicken", measure := "1 lb" }) ≠ "" :=
  (extractIngredients_slots.1 slotExampleDetail).2
    { ingredient := "Chicken", measure := "1 lb" } (by decide)
